/-
Verification of the AxelPhotoBot asynchronous generation pipeline.

Shallow embedding of:
  * bot/services/image_tokens.py  (pricing tables and cost functions)
  * bot/services/balance.py       (BalanceService: deduct / refund)
  * bot/db/repositories.py        (TaskRepository.create / update_status)
  * bot/tasks/generation.py       (_process_generation_task_async, the
    worker step of the dispatcher state machine)

External effects (Telegram delivery, the provider HTTP call, RQ) are
modelled as inputs supplied in a `WorkerEnv`; database rows become
records in association lists, and SQLAlchemy's mutate-the-fetched-row
update becomes replace-first-match on those lists.
-/

import Mathlib

namespace AxelPhotoBot

/-! ### Python-semantics helpers -/

/-- Python `x if x is not None else old` pattern used by
`TaskRepository.update_status` (`if arg is not None: field = arg`). -/
def setIfSome {α : Type} (arg old : Option α) : Option α :=
  match arg with
  | some x => some x
  | Option.none => old

/-- Python truthiness of an `Optional[str]`: `None` and `""` are falsy. -/
def truthyStr : Option String → Bool
  | Option.none => false
  | some s => !s.data.isEmpty

/-- Python `a or b` on an `Optional[str]` `a` with string default `b`. -/
def pyOrStr (a : Option String) (b : String) : String :=
  match a with
  | some s => if s.data.isEmpty then b else s
  | Option.none => b

/-- Python `s.lower()` (the messages involved are ASCII). -/
def pyLower (s : String) : String := ⟨s.data.map Char.toLower⟩

/-- Test that `needle` occurs as a contiguous sublist of `haystack`
(Python's `needle in haystack` on strings, over char lists). -/
def listContainsSub (needle : List Char) : List Char → Bool
  | [] => needle.isEmpty
  | c :: rest => needle.isPrefixOf (c :: rest) || listContainsSub needle rest

/-- Python `needle in haystack` for strings. -/
def substrIn (needle haystack : String) : Bool :=
  listContainsSub needle.data haystack.data

/-! ### bot/services/image_tokens.py -/

/-- Source `is_seedream_model`: the model string starts with `"seedream"`. -/
def is_seedream_model : Option String → Bool
  | Option.none => false
  | some m => "seedream".data.isPrefixOf m.data

/-- The `GPT_TOKEN_COSTS` dict as a lookup function. -/
def GPT_TOKEN_COSTS (q : String) : Option Nat :=
  if q = "low" then some 2
  else if q = "medium" then some 5
  else if q = "high" then some 20
  else Option.none

/-- The `SEEDREAM_TOKEN_COSTS` dict as a lookup function. -/
def SEEDREAM_TOKEN_COSTS (q : String) : Option Nat :=
  if q = "2k" then some 5
  else if q = "4k" then some 5
  else Option.none

/-- Source `estimate_image_tokens(quality, size, model)`: user-facing token cost;
`dict.get(quality, 5)` falls back to 5; `size` is ignored. -/
def estimate_image_tokens (quality : String) (_size : String) (model : Option String) : Nat :=
  if is_seedream_model model then (SEEDREAM_TOKEN_COSTS quality).getD 5
  else (GPT_TOKEN_COSTS quality).getD 5

/-- The `API_TOKEN_TABLE` nested dict as a lookup function. -/
def API_TOKEN_TABLE (q s : String) : Option Int :=
  if q = "low" then
    (if s = "1024x1024" then some 272
     else if s = "1024x1536" then some 408
     else if s = "1536x1024" then some 400
     else Option.none)
  else if q = "medium" then
    (if s = "1024x1024" then some 1056
     else if s = "1024x1536" then some 1584
     else if s = "1536x1024" then some 1568
     else Option.none)
  else if q = "high" then
    (if s = "1024x1024" then some 4160
     else if s = "1024x1536" then some 6240
     else if s = "1536x1024" then some 6208
     else Option.none)
  else if q = "2k" then
    (if s = "1024x1024" then some 1000
     else if s = "1024x1536" then some 1000
     else if s = "1536x1024" then some 1000
     else Option.none)
  else if q = "4k" then
    (if s = "1024x1024" then some 1500
     else if s = "1024x1536" then some 1500
     else if s = "1536x1024" then some 1500
     else Option.none)
  else Option.none

/-- Source `estimate_api_tokens(quality, size)` with fallback 1000. -/
def estimate_api_tokens (q s : String) : Int :=
  (API_TOKEN_TABLE q s).getD 1000

/-- Source `calculate_extra_images_cost(images_count)`. -/
def calculate_extra_images_cost (images_count : Nat) : Nat :=
  if images_count ≤ 3 then 0
  else if images_count ≤ 6 then 1
  else 2

/-- Source `calculate_total_cost(quality, images_count, model)`; the call to
`estimate_image_tokens` uses the default size `"1024x1024"`. -/
def calculate_total_cost (quality : String) (images_count : Nat) (model : Option String) : Nat :=
  estimate_image_tokens quality "1024x1024" model + calculate_extra_images_cost images_count

/-! ### bot/db/models.py — rows as records -/

/-- A row of the `users` table (the fields the pipeline touches). -/
structure UserRec where
  id : Int
  tokens : Int
  api_tokens_spent : Int
deriving Repr, DecidableEq

/-- A row of the `generation_tasks` table. -/
structure Task where
  id : Int
  user_id : Int
  task_type : String
  model : Option String
  image_quality : String
  image_size : String
  prompt : String
  source_image_url : Option String
  result_image_url : Option String
  result_file_id : Option String
  status : String
  tokens_spent : Int
  api_tokens_spent : Int
  images_count : Int
  retry_count : Nat
  error_message : Option String
deriving Repr, DecidableEq

/-- Query `SELECT ... WHERE users.id = user_id` followed by `scalar_one_or_none`. -/
def findUser : List UserRec → Int → Option UserRec
  | [], _ => Option.none
  | u :: rest, uid => if u.id = uid then some u else findUser rest uid

/-- Mutating the fetched `User` row in place: replace the first row whose
id matches with the updated record. -/
def setUser : List UserRec → Int → UserRec → List UserRec
  | [], _, _ => []
  | u :: rest, uid, u' => if u.id = uid then u' :: rest else u :: setUser rest uid u'

/-- Query `SELECT ... WHERE generation_tasks.id = task_id`, `scalar_one_or_none`. -/
def findTask : List Task → Int → Option Task
  | [], _ => Option.none
  | t :: rest, tid => if t.id = tid then some t else findTask rest tid

/-- Mutating the fetched `GenerationTask` row in place. -/
def setTask : List Task → Int → Task → List Task
  | [], _, _ => []
  | t :: rest, tid, t' => if t.id = tid then t' :: rest else t :: setTask rest tid t'

/-! ### bot/services/balance.py — BalanceService -/

/-- Outcome of `deduct_tokens`: `.error (required, available)` is the raised
`InsufficientBalanceError`; `.ok Option.none` is a `return None`
(user not found, or insufficient with `raise_on_insufficient=False`);
`.ok (some u)` returns the updated user. -/
abbrev DeductOutcome := Except (Int × Int) (Option UserRec)

/-- Source `BalanceService.deduct_tokens(user_id, amount, raise_on_insufficient)`:
returns the users table after the call together with the outcome. -/
def deduct_tokens (users : List UserRec) (user_id amount : Int)
    (raise_on_insufficient : Bool) : List UserRec × DeductOutcome :=
  match findUser users user_id with
  | Option.none => (users, .ok Option.none)
  | some user =>
    if user.tokens < amount then
      if raise_on_insufficient then (users, .error (amount, user.tokens))
      else (users, .ok Option.none)
    else
      let user' := { user with tokens := user.tokens - amount }
      (setUser users user_id user', .ok (some user'))

/-- Source `BalanceService.refund_tokens(user_id, amount)`: additive, never
validated; returns `None` when the user row does not exist. -/
def refund_tokens (users : List UserRec) (user_id amount : Int) :
    List UserRec × Option UserRec :=
  match findUser users user_id with
  | Option.none => (users, Option.none)
  | some user =>
    let user' := { user with tokens := user.tokens + amount }
    (setUser users user_id user', some user')

/-! ### bot/db/repositories.py — TaskRepository -/

/-- Source `TaskRepository.create(...)`: a fresh row, status `"pending"`,
`retry_count` 0, result fields empty. -/
def TaskRepository.create (id user_id : Int) (task_type : String)
    (prompt : String) (tokens_spent : Int) (model : Option String)
    (image_quality image_size : String) (source_image_url : Option String)
    (images_count : Int) : Task :=
  { id := id, user_id := user_id, task_type := task_type, model := model,
    image_quality := image_quality, image_size := image_size,
    prompt := prompt, source_image_url := source_image_url,
    result_image_url := Option.none, result_file_id := Option.none,
    status := "pending", tokens_spent := tokens_spent,
    api_tokens_spent := 0, images_count := images_count,
    retry_count := 0, error_message := Option.none }

/-- The field updates `TaskRepository.update_status` applies to the fetched
row: `status` unconditionally; each optional argument only when it is not
`None`; `retry_count` incremented only when `increment_retry`. -/
def applyStatusUpdate (t : Task) (status : String)
    (result_image_url result_file_id error_message : Option String)
    (increment_retry : Bool) (api_tokens_spent : Option Int) : Task :=
  { t with
    status := status,
    result_image_url := setIfSome result_image_url t.result_image_url,
    result_file_id := setIfSome result_file_id t.result_file_id,
    error_message := setIfSome error_message t.error_message,
    retry_count := if increment_retry then t.retry_count + 1 else t.retry_count,
    api_tokens_spent :=
      match api_tokens_spent with
      | some a => a
      | Option.none => t.api_tokens_spent }

/-- Source `TaskRepository.update_status(task_id, status, ...)`: fetch the row,
return `(table, None)` if absent, else write the updated row back. -/
def update_status (tasks : List Task) (task_id : Int) (status : String)
    (result_image_url result_file_id error_message : Option String)
    (increment_retry : Bool) (api_tokens_spent : Option Int) :
    List Task × Option Task :=
  match findTask tasks task_id with
  | Option.none => (tasks, Option.none)
  | some t =>
    let t' := applyStatusUpdate t status result_image_url result_file_id
      error_message increment_retry api_tokens_spent
    (setTask tasks task_id t', some t')

/-! ### bot/tasks/generation.py — the worker step -/

/-- The `MAX_RETRIES` constant. -/
def MAX_RETRIES : Nat := 3

/-- The `GenerationResult` returned by the provider adapters. -/
structure GenerationResult where
  success : Bool
  image_url : Option String
  image_base64 : Option String
  error : Option String
deriving Repr, DecidableEq

/-- External-world inputs consumed by one invocation of
`_process_generation_task_async`: the provider call's result and the
value `_send_result_to_user` would return (`None` on delivery failure,
since that helper catches its own exceptions). -/
structure WorkerEnv where
  provider_result : GenerationResult
  send_file_id : Option String
deriving Repr, DecidableEq

/-- The database state the worker reads and writes. -/
structure WorkerState where
  tasks : List Task
  users : List UserRec
deriving Repr, DecidableEq

/-- Source `BalanceService.refund_task(task_id)`: look the task up and refund
`tokens_spent` to its owner; `None` when the task is absent. -/
def refund_task (st : WorkerState) (task_id : Int) :
    WorkerState × Option UserRec :=
  match findTask st.tasks task_id with
  | Option.none => (st, Option.none)
  | some t =>
    let r := refund_tokens st.users t.user_id t.tokens_spent
    (⟨st.tasks, r.1⟩, r.2)

/-- Source `_update_user_api_tokens(session, user_id, api_tokens)`: add to the
user's running API-token total; silently does nothing if the user is
absent. -/
def update_user_api_tokens (users : List UserRec) (user_id api_tokens : Int) :
    List UserRec :=
  match findUser users user_id with
  | Option.none => users
  | some u =>
    setUser users user_id { u with api_tokens_spent := u.api_tokens_spent + api_tokens }

/-- The moderation test applied to a provider error message:
`"moderation" in m.lower() or "safety" in m.lower() or
"content policy" in m.lower()`. -/
def isModerationError (error_msg : String) : Bool :=
  substrIn "moderation" (pyLower error_msg)
    || substrIn "safety" (pyLower error_msg)
    || substrIn "content policy" (pyLower error_msg)

/-- The spec's `Retryable`/`Moderation` classification. -/
inductive FailureClass where
  | Retryable
  | Moderation
deriving Repr, DecidableEq

/-- The classifier as the worker implements it: `ModerationError` is raised
exactly when `isModerationError` holds, every other failure becomes a
(retryable) `GenerationError`. -/
def classify (failureMessage : String) : FailureClass :=
  if isModerationError failureMessage then .Moderation else .Retryable

/-- What one invocation of `_process_generation_task_async` produced:
`.returned b` is a normal return, `.reraised` is the final `raise` that
hands the job back to RQ for re-delivery. -/
inductive WorkerOutcome where
  | returned (b : Bool)
  | reraised
deriving Repr, DecidableEq

/-- Result of one worker invocation: the new database state, how the
function ended, and instrumentation counting provider calls and
`refund_task` calls made during the invocation. -/
structure StepResult where
  state : WorkerState
  outcome : WorkerOutcome
  provider_calls : Nat
  refund_calls : Nat
deriving Repr, DecidableEq

/-- The generic `except Exception` handler: re-fetch the task, compute
`current_retry = retry_count + 1`; at or past `MAX_RETRIES` mark failed,
refund and return `False`; otherwise set back to pending, increment the
retry count and re-raise for RQ. -/
def handleGenericFailure (st : WorkerState) (task_id : Int)
    (error_msg : String) (pc : Nat) : StepResult :=
  match findTask st.tasks task_id with
  | Option.none => ⟨st, .returned false, pc, 0⟩
  | some t =>
    let current_retry := t.retry_count + 1
    if MAX_RETRIES ≤ current_retry then
      let tasks2 := (update_status st.tasks task_id "failed" Option.none
        Option.none (some error_msg) true Option.none).1
      let st2 := (refund_task ⟨tasks2, st.users⟩ task_id).1
      ⟨st2, .returned false, pc, 1⟩
    else
      let tasks2 := (update_status st.tasks task_id "pending" Option.none
        Option.none (some error_msg) true Option.none).1
      ⟨⟨tasks2, st.users⟩, .reraised, pc, 0⟩

/-- The `except ModerationError` handler: mark failed immediately with
message `"Content moderation"` (no retry increment), refund, return
`False`. -/
def handleModeration (st : WorkerState) (task_id : Int) (pc : Nat) :
    StepResult :=
  let tasks2 := (update_status st.tasks task_id "failed" Option.none
    Option.none (some "Content moderation") false Option.none).1
  let st2 := (refund_task ⟨tasks2, st.users⟩ task_id).1
  ⟨st2, .returned false, pc, 1⟩

/-- The body after the provider call returned `result`: on success with a
payload, attempt delivery; an untruthy file id raises
`GenerationError("Failed to send result to user")`; otherwise mark done
and record API tokens. On a provider error, classify and dispatch to the
moderation or generic handler. -/
def handleProviderResult (env : WorkerEnv) (st : WorkerState) (task : Task)
    (task_id : Int) (pc : Nat) : StepResult :=
  let result := env.provider_result
  if result.success && (truthyStr result.image_url || truthyStr result.image_base64) then
    let api_tokens := estimate_api_tokens task.image_quality task.image_size
    if truthyStr env.send_file_id then
      let tasks2 := (update_status st.tasks task_id "done" result.image_url
        env.send_file_id Option.none false (some api_tokens)).1
      let users2 := update_user_api_tokens st.users task.user_id api_tokens
      ⟨⟨tasks2, users2⟩, .returned true, pc, 0⟩
    else
      handleGenericFailure st task_id "Failed to send result to user" pc
  else
    let error_msg := pyOrStr result.error "Unknown error"
    if isModerationError error_msg then handleModeration st task_id pc
    else handleGenericFailure st task_id error_msg pc

/-- One invocation of `_process_generation_task_async(task_id)`: fetch the
task (no status guard — any found task is processed), unconditionally set
status `"processing"`, dispatch on `task_type` (the two `ValueError`s land
in the generic handler without a provider call), then handle the provider
result. -/
def process_generation_task_async (env : WorkerEnv) (st : WorkerState)
    (task_id : Int) : StepResult :=
  match findTask st.tasks task_id with
  | Option.none => ⟨st, .returned false, 0, 0⟩
  | some task =>
    let tasks1 := (update_status st.tasks task_id "processing" Option.none
      Option.none Option.none false Option.none).1
    let st1 : WorkerState := ⟨tasks1, st.users⟩
    if task.task_type = "generate" then
      handleProviderResult env st1 task task_id 1
    else if task.task_type = "edit" then
      if task.source_image_url = Option.none then
        handleGenericFailure st1 task_id "Edit task requires source_image_url" 0
      else
        handleProviderResult env st1 task task_id 1
    else
      handleGenericFailure st1 task_id ("Unknown task type: " ++ task.task_type) 0

/-- RQ's at-least-once re-delivery loop: run one invocation per
environment in the list, continuing only while the invocation re-raised;
accumulates provider-call and refund-call counts. -/
def runAttempts : List WorkerEnv → WorkerState → Int →
    WorkerState × WorkerOutcome × Nat × Nat
  | [], st, _ => (st, .reraised, 0, 0)
  | env :: rest, st, task_id =>
    let r := process_generation_task_async env st task_id
    match r.outcome with
    | .returned b => (r.state, .returned b, r.provider_calls, r.refund_calls)
    | .reraised =>
      let rec2 := runAttempts rest r.state task_id
      (rec2.1, rec2.2.1, r.provider_calls + rec2.2.2.1, r.refund_calls + rec2.2.2.2)

/-! ### Operation sequences on one account (for balance conservation) -/

/-- One ledger operation on a fixed account. -/
inductive LedgerOp where
  | deduct (amount : Int)
  | refund (amount : Int)
deriving Repr, DecidableEq

/-- Run a sequence of ledger operations; `Option.none` as soon as one
operation does not individually succeed (a deduct that does not return an
updated user, or a refund that returns `None`). -/
def runLedgerOps (users : List UserRec) (user_id : Int) :
    List LedgerOp → Option (List UserRec)
  | [] => some users
  | LedgerOp.deduct a :: rest =>
    match deduct_tokens users user_id a true with
    | (users', .ok (some _)) => runLedgerOps users' user_id rest
    | _ => Option.none
  | LedgerOp.refund a :: rest =>
    match refund_tokens users user_id a with
    | (users', some _) => runLedgerOps users' user_id rest
    | _ => Option.none

/-- Sum of the amounts refunded by a sequence. -/
def refundSum : List LedgerOp → Int
  | [] => 0
  | LedgerOp.deduct _ :: rest => refundSum rest
  | LedgerOp.refund a :: rest => a + refundSum rest

/-- Sum of the amounts deducted by a sequence. -/
def deductSum : List LedgerOp → Int
  | [] => 0
  | LedgerOp.deduct a :: rest => a + deductSum rest
  | LedgerOp.refund _ :: rest => deductSum rest

/-! ### Canonical one-task states and environments used by the theorems -/

/-- A `generate` task row with the pipeline-relevant fields parameterized. -/
def genTask (tid uid c : Int) (p q s status0 : String) (r : Nat)
    (err : Option String) : Task :=
  { id := tid, user_id := uid, task_type := "generate", model := Option.none,
    image_quality := q, image_size := s, prompt := p,
    source_image_url := Option.none, result_image_url := Option.none,
    result_file_id := Option.none, status := status0, tokens_spent := c,
    api_tokens_spent := 0, images_count := 1, retry_count := r,
    error_message := err }

/-- A user row. -/
def userRow (uid B a : Int) : UserRec :=
  { id := uid, tokens := B, api_tokens_spent := a }

/-- Environment for an attempt on which the provider fails with message
`m` (a `GenerationResult` with `success=False` and `error=m`). -/
def failEnv (m : String) : WorkerEnv :=
  ⟨⟨false, Option.none, Option.none, some m⟩, Option.none⟩

/-- Environment for an attempt on which the provider succeeds with image
URL `url` and Telegram delivery succeeds returning file id `fid`. -/
def okEnv (url fid : String) : WorkerEnv :=
  ⟨⟨true, some url, Option.none, Option.none⟩, some fid⟩

/-! ### Single-step behaviour of the worker on a one-task state -/

/-- A transient (non-moderation) provider failure with retries left:
the task is set back to `pending` with the retry count incremented and the
error recorded, no refund happens, and the exception is re-raised for RQ.
The initial `status0` is arbitrary: the worker never checks it. -/
lemma wstep_transient (tid uid c B a : Int) (p q s status0 : String) (r : Nat)
    (err : Option String) (m : String)
    (hm : isModerationError m = false) (hne : m.data.isEmpty = false)
    (hr : r + 1 < MAX_RETRIES) :
    process_generation_task_async (failEnv m)
      ⟨[genTask tid uid c p q s status0 r err], [userRow uid B a]⟩ tid =
    ⟨⟨[genTask tid uid c p q s "pending" (r + 1) (some m)], [userRow uid B a]⟩,
      .reraised, 1, 0⟩ := by
  have hr' : ¬ (MAX_RETRIES ≤ r + 1) := Nat.not_le.mpr hr
  simp [process_generation_task_async, genTask, userRow, failEnv,
    update_status, findTask, setTask, applyStatusUpdate, setIfSome,
    handleProviderResult, truthyStr, pyOrStr, hne, hm,
    handleGenericFailure, hr']

/-- A transient provider failure with the retry budget exhausted
(`retry_count + 1 ≥ MAX_RETRIES`): the task is marked `failed` with the
retry count incremented and the error recorded, `tokens_spent` is refunded
to the owner once, and the function returns `False`. -/
lemma wstep_exhausted (tid uid c B a : Int) (p q s status0 : String) (r : Nat)
    (err : Option String) (m : String)
    (hm : isModerationError m = false) (hne : m.data.isEmpty = false)
    (hr : MAX_RETRIES ≤ r + 1) :
    process_generation_task_async (failEnv m)
      ⟨[genTask tid uid c p q s status0 r err], [userRow uid B a]⟩ tid =
    ⟨⟨[genTask tid uid c p q s "failed" (r + 1) (some m)],
        [userRow uid (B + c) a]⟩,
      .returned false, 1, 1⟩ := by
  simp [process_generation_task_async, genTask, userRow, failEnv,
    update_status, findTask, setTask, applyStatusUpdate, setIfSome,
    handleProviderResult, truthyStr, pyOrStr, hne, hm,
    handleGenericFailure, hr, refund_task, refund_tokens, findUser, setUser]

/-- A provider failure classified as moderation: the task is marked
`failed` immediately with message `"Content moderation"`, the retry count
is left untouched, `tokens_spent` is refunded once, and the function
returns `False` — no re-enqueue. -/
lemma wstep_moderation (tid uid c B a : Int) (p q s status0 : String) (r : Nat)
    (err : Option String) (m : String)
    (hm : isModerationError m = true) (hne : m.data.isEmpty = false) :
    process_generation_task_async (failEnv m)
      ⟨[genTask tid uid c p q s status0 r err], [userRow uid B a]⟩ tid =
    ⟨⟨[genTask tid uid c p q s "failed" r (some "Content moderation")],
        [userRow uid (B + c) a]⟩,
      .returned false, 1, 1⟩ := by
  simp [process_generation_task_async, genTask, userRow, failEnv,
    update_status, findTask, setTask, applyStatusUpdate, setIfSome,
    handleProviderResult, truthyStr, pyOrStr, hne, hm,
    handleModeration, refund_task, refund_tokens, findUser, setUser]

/-- A successful provider call followed by successful delivery: the task
is marked `done` with the result URL, the delivered file id and the API
token figure recorded; `retry_count`, `tokens_spent` and `error_message`
are untouched; the user's API-token total grows; no refund. -/
lemma wstep_success (tid uid c B a : Int) (p q s status0 : String) (r : Nat)
    (err : Option String) (url fid : String)
    (hurl : url.data.isEmpty = false) (hfid : fid.data.isEmpty = false) :
    process_generation_task_async (okEnv url fid)
      ⟨[genTask tid uid c p q s status0 r err], [userRow uid B a]⟩ tid =
    ⟨⟨[{ genTask tid uid c p q s "done" r err with
          result_image_url := some url, result_file_id := some fid,
          api_tokens_spent := estimate_api_tokens q s }],
        [userRow uid B (a + estimate_api_tokens q s)]⟩,
      .returned true, 1, 0⟩ := by
  simp [process_generation_task_async, genTask, userRow, okEnv,
    update_status, findTask, setTask, applyStatusUpdate, setIfSome,
    handleProviderResult, truthyStr, hurl, hfid,
    update_user_api_tokens, findUser, setUser]

/-! ### Claim theorems -/

/-- C9: for every `images_count` from 1 to 10, the extra-source-images
surcharge is 0 for 1–3 images, 1 for 4–6 and 2 for 7–10, and
`calculate_total_cost` is the base per-quality cost plus that surcharge. -/
theorem C9_extra_images_cost (n : Nat) (h1 : 1 ≤ n) (h10 : n ≤ 10) :
    (n ≤ 3 → calculate_extra_images_cost n = 0) ∧
    (4 ≤ n → n ≤ 6 → calculate_extra_images_cost n = 1) ∧
    (7 ≤ n → calculate_extra_images_cost n = 2) ∧
    (∀ (q : String) (m : Option String),
      calculate_total_cost q n m =
        estimate_image_tokens q "1024x1024" m + calculate_extra_images_cost n) := by
  refine ⟨?_, ?_, ?_, ?_⟩
  · intro h3
    simp [calculate_extra_images_cost, h3]
  · intro h4 h6
    have h3 : ¬ n ≤ 3 := by omega
    simp [calculate_extra_images_cost, h3, h6]
  · intro h7
    have h3 : ¬ n ≤ 3 := by omega
    have h6 : ¬ n ≤ 6 := by omega
    simp [calculate_extra_images_cost, h3, h6]
  · intro q m
    rfl

/-- Witness for C9 at `images_count = 5`. -/
theorem C9_extra_images_cost_witness :
    calculate_extra_images_cost 5 = 1 ∧
    calculate_total_cost "high" 5 Option.none =
      estimate_image_tokens "high" "1024x1024" Option.none +
        calculate_extra_images_cost 5 := by
  have h := C9_extra_images_cost 5 (by decide) (by decide)
  exact ⟨h.2.1 (by decide) (by decide), h.2.2.2 "high" Option.none⟩

/-- C10: `estimate_image_tokens` is total — any quality missing from the
applicable cost table falls back to 5 — and for SeeDream models the
`"4k"` quality costs 5 tokens, the same as `"2k"`. -/
theorem C10_estimate_tokens_total (q s : String) (m : Option String) :
    (is_seedream_model m = true → SEEDREAM_TOKEN_COSTS q = Option.none →
      estimate_image_tokens q s m = 5) ∧
    (is_seedream_model m = false → GPT_TOKEN_COSTS q = Option.none →
      estimate_image_tokens q s m = 5) ∧
    estimate_image_tokens "4k" s (some "seedream-4-5-251128") = 5 ∧
    estimate_image_tokens "4k" s (some "seedream-4-5-251128") =
      estimate_image_tokens "2k" s (some "seedream-4-5-251128") := by
  refine ⟨?_, ?_, by rfl, by rfl⟩
  · intro hsee htab
    simp [estimate_image_tokens, hsee, htab]
  · intro hsee htab
    simp [estimate_image_tokens, hsee, htab]

/-- C6: the worker classifies a provider failure as moderation exactly
when the lowercased message contains `"moderation"`, `"safety"` or
`"content policy"`; every other message — matched case-insensitively —
is retryable. -/
theorem C6_moderation_classifier (msg : String) :
    (classify msg = FailureClass.Moderation ↔
      (substrIn "moderation" (pyLower msg) = true ∨
       substrIn "safety" (pyLower msg) = true ∨
       substrIn "content policy" (pyLower msg) = true)) ∧
    (classify msg = FailureClass.Retryable ∨
     classify msg = FailureClass.Moderation) ∧
    classify "Blocked by CONTENT POLICY" = FailureClass.Moderation ∧
    classify "request rejected by the Safety system" = FailureClass.Moderation ∧
    classify "Rate limit exceeded" = FailureClass.Retryable ∧
    classify "Unknown error" = FailureClass.Retryable := by
  refine ⟨?_, ?_, by decide, by decide, by decide, by decide⟩
  · unfold classify isModerationError
    by_cases h1 : substrIn "moderation" (pyLower msg) <;>
      by_cases h2 : substrIn "safety" (pyLower msg) <;>
        by_cases h3 : substrIn "content policy" (pyLower msg) <;>
          simp [h1, h2, h3]
  · unfold classify
    by_cases h : isModerationError msg <;> simp [h]

/-- C1 (amended): the worker discards a job as a no-op only when the task
row does not exist; a found task is processed regardless of its status —
in particular a task already in the terminal state `"done"` is taken
through a provider call again and, on a transient failure, re-enqueued as
`"pending"`. -/
theorem C1_idempotent_consumption :
    (∀ (env : WorkerEnv) (st : WorkerState) (task_id : Int),
      findTask st.tasks task_id = Option.none →
      process_generation_task_async env st task_id =
        ⟨st, .returned false, 0, 0⟩) ∧
    (∀ (tid uid c B a : Int) (p q s : String) (r : Nat) (err : Option String)
        (m : String),
      isModerationError m = false → m.data.isEmpty = false →
      r + 1 < MAX_RETRIES →
      process_generation_task_async (failEnv m)
        ⟨[genTask tid uid c p q s "done" r err], [userRow uid B a]⟩ tid =
      ⟨⟨[genTask tid uid c p q s "pending" (r + 1) (some m)],
          [userRow uid B a]⟩, .reraised, 1, 0⟩) := by
  constructor
  · intro env st task_id h
    simp [process_generation_task_async, h]
  · intro tid uid c B a p q s r err m hm hne hr
    exact wstep_transient tid uid c B a p q s "done" r err m hm hne hr

/-- C1 counterexample: re-delivering a job whose task is already `"done"`
is not a no-op — the provider is called once and the task's state changes
(it is even re-enqueued as `"pending"`). -/
theorem C1_counterexample :
    (process_generation_task_async (failEnv "connection reset")
      ⟨[genTask 1 2 5 "p" "medium" "1024x1024" "done" 0 Option.none],
        [userRow 2 0 0]⟩ 1).provider_calls = 1 ∧
    (process_generation_task_async (failEnv "connection reset")
      ⟨[genTask 1 2 5 "p" "medium" "1024x1024" "done" 0 Option.none],
        [userRow 2 0 0]⟩ 1).state ≠
      ⟨[genTask 1 2 5 "p" "medium" "1024x1024" "done" 0 Option.none],
        [userRow 2 0 0]⟩ := by
  decide

/-- C3: a provider failure classified as moderation marks the task
`failed` at once — no re-enqueue (the call returns instead of
re-raising), no backoff — with `retry_count` unchanged and exactly one
refund of `tokens_spent` to the owner. -/
theorem C3_moderation_short_circuit (tid uid c B a : Int) (p q s : String)
    (r : Nat) (err : Option String) (m : String)
    (hm : isModerationError m = true) (hne : m.data.isEmpty = false) :
    process_generation_task_async (failEnv m)
      ⟨[genTask tid uid c p q s "pending" r err], [userRow uid B a]⟩ tid =
    ⟨⟨[genTask tid uid c p q s "failed" r (some "Content moderation")],
        [userRow uid (B + c) a]⟩,
      .returned false, 1, 1⟩ :=
  wstep_moderation tid uid c B a p q s "pending" r err m hm hne

/-- Witness for C3 at a concrete moderation failure. -/
theorem C3_moderation_short_circuit_witness :
    process_generation_task_async (failEnv "blocked by content policy")
      ⟨[genTask 1 2 5 "p" "medium" "1024x1024" "pending" 0 Option.none],
        [userRow 2 7 0]⟩ 1 =
    ⟨⟨[genTask 1 2 5 "p" "medium" "1024x1024" "failed" 0
          (some "Content moderation")],
        [userRow 2 (7 + 5) 0]⟩,
      .returned false, 1, 1⟩ :=
  C3_moderation_short_circuit 1 2 5 7 0 "p" "medium" "1024x1024" 0
    Option.none "blocked by content policy" (by decide) (by decide)

/-- C7 (amended): a refund whose account (or task) row is missing does not
raise: `refund_tokens` and `refund_task` return `None` silently and leave
every balance unchanged, and the worker ignores that return value. -/
theorem C7_refund_missing_account :
    (∀ (users : List UserRec) (uid amount : Int),
      findUser users uid = Option.none →
      refund_tokens users uid amount = (users, Option.none)) ∧
    (∀ (st : WorkerState) (task_id : Int) (t : Task),
      findTask st.tasks task_id = some t →
      findUser st.users t.user_id = Option.none →
      refund_task st task_id = (st, Option.none)) := by
  constructor
  · intro users uid amount h
    simp [refund_tokens, h]
  · intro st task_id t h1 h2
    simp [refund_task, h1, refund_tokens, h2]

/-- C7 counterexample: refunding a task whose owning user row does not
exist returns `None` silently — no exception is raised and the caller
observes no failure. -/
theorem C7_counterexample :
    refund_tokens [] 7 5 = ([], Option.none) ∧
    refund_task
      ⟨[genTask 1 2 5 "p" "medium" "1024x1024" "failed" 0 Option.none], []⟩ 1 =
      (⟨[genTask 1 2 5 "p" "medium" "1024x1024" "failed" 0 Option.none], []⟩,
        Option.none) := by
  decide

/-- C2: with the retry ceiling `MAX_RETRIES = 3`, a fresh task that fails
transiently on all three attempts ends `failed` with `retry_count = 3`,
three provider calls and exactly one refund (balance `B + c`); a fresh
task that fails transiently twice and succeeds on the third attempt ends
`done` with `retry_count = 2`, no refund, and the balance untouched. -/
theorem C2_retry_ceiling (tid uid c B a : Int) (p q s : String)
    (m1 m2 m3 url fid : String)
    (hm1 : isModerationError m1 = false) (hne1 : m1.data.isEmpty = false)
    (hm2 : isModerationError m2 = false) (hne2 : m2.data.isEmpty = false)
    (hm3 : isModerationError m3 = false) (hne3 : m3.data.isEmpty = false)
    (hurl : url.data.isEmpty = false) (hfid : fid.data.isEmpty = false) :
    MAX_RETRIES = 3 ∧
    runAttempts [failEnv m1, failEnv m2, failEnv m3]
      ⟨[genTask tid uid c p q s "pending" 0 Option.none], [userRow uid B a]⟩ tid =
      (⟨[genTask tid uid c p q s "failed" 3 (some m3)],
          [userRow uid (B + c) a]⟩,
        WorkerOutcome.returned false, 3, 1) ∧
    runAttempts [failEnv m1, failEnv m2, okEnv url fid]
      ⟨[genTask tid uid c p q s "pending" 0 Option.none], [userRow uid B a]⟩ tid =
      (⟨[{ genTask tid uid c p q s "done" 2 (some m2) with
            result_image_url := some url, result_file_id := some fid,
            api_tokens_spent := estimate_api_tokens q s }],
          [userRow uid B (a + estimate_api_tokens q s)]⟩,
        WorkerOutcome.returned true, 3, 0) := by
  have s1 := wstep_transient tid uid c B a p q s "pending" 0 Option.none
    m1 hm1 hne1 (by decide)
  have s2 := wstep_transient tid uid c B a p q s "pending" 1 (some m1)
    m2 hm2 hne2 (by decide)
  have s3 := wstep_exhausted tid uid c B a p q s "pending" 2 (some m2)
    m3 hm3 hne3 (by decide)
  have s4 := wstep_success tid uid c B a p q s "pending" 2 (some m2)
    url fid hurl hfid
  norm_num at s1 s2 s3 s4
  refine ⟨rfl, ?_, ?_⟩
  · simp [runAttempts, s1, s2, s3]
  · simp [runAttempts, s1, s2, s4]

/-- Witness for C2 at concrete transient messages, URL and file id. -/
theorem C2_retry_ceiling_witness :
    MAX_RETRIES = 3 ∧
    runAttempts [failEnv "timeout", failEnv "rate limit", failEnv "server error"]
      ⟨[genTask 1 2 5 "p" "medium" "1024x1024" "pending" 0 Option.none],
        [userRow 2 0 0]⟩ 1 =
      (⟨[genTask 1 2 5 "p" "medium" "1024x1024" "failed" 3 (some "server error")],
          [userRow 2 (0 + 5) 0]⟩,
        WorkerOutcome.returned false, 3, 1) ∧
    runAttempts [failEnv "timeout", failEnv "rate limit", okEnv "https://img" "FILE1"]
      ⟨[genTask 1 2 5 "p" "medium" "1024x1024" "pending" 0 Option.none],
        [userRow 2 0 0]⟩ 1 =
      (⟨[{ genTask 1 2 5 "p" "medium" "1024x1024" "done" 2 (some "rate limit") with
            result_image_url := some "https://img",
            result_file_id := some "FILE1",
            api_tokens_spent := estimate_api_tokens "medium" "1024x1024" }],
          [userRow 2 0 (0 + estimate_api_tokens "medium" "1024x1024")]⟩,
        WorkerOutcome.returned true, 3, 0) :=
  C2_retry_ceiling 1 2 5 0 0 "p" "medium" "1024x1024"
    "timeout" "rate limit" "server error" "https://img" "FILE1"
    (by decide) (by decide) (by decide) (by decide) (by decide) (by decide)
    (by decide) (by decide)

/-! ### Balance-conservation helpers -/

/-- The record `findUser` returns carries the looked-up id. -/
lemma findUser_id : ∀ {users : List UserRec} {uid : Int} {u : UserRec},
    findUser users uid = some u → u.id = uid := by
  intro users
  induction users with
  | nil => intro uid u h; simp [findUser] at h
  | cons v rest ih =>
    intro uid u h
    by_cases hv : v.id = uid
    · simp [findUser, hv] at h
      subst h
      exact hv
    · simp [findUser, hv] at h
      exact ih h

/-- Writing back a row with the looked-up id makes it the row the next
lookup finds. -/
lemma findUser_setUser : ∀ {users : List UserRec} {uid : Int} {u : UserRec}
    (u' : UserRec), findUser users uid = some u → u'.id = uid →
    findUser (setUser users uid u') uid = some u' := by
  intro users
  induction users with
  | nil => intro uid u u' h _; simp [findUser] at h
  | cons v rest ih =>
    intro uid u u' h h'
    by_cases hv : v.id = uid
    · simp [setUser, hv, findUser, h']
    · simp [setUser, hv, findUser]
      simp [findUser, hv] at h
      exact ih u' h h'

/-- Running a sequence of individually successful deduct/refund operations
moves the account's balance by the sum of refunds minus the sum of
deducts. -/
lemma runLedgerOps_tokens : ∀ (ops : List LedgerOp) (users : List UserRec)
    (uid : Int) (u : UserRec) (users' : List UserRec),
    findUser users uid = some u → runLedgerOps users uid ops = some users' →
    ∃ u'', findUser users' uid = some u'' ∧
      u''.tokens = u.tokens + refundSum ops - deductSum ops := by
  intro ops
  induction ops with
  | nil =>
    intro users uid u users' hf hr
    simp [runLedgerOps] at hr
    subst hr
    exact ⟨u, hf, by simp [refundSum, deductSum]⟩
  | cons op rest ih =>
    intro users uid u users' hf hr
    cases op with
    | deduct a =>
      simp only [runLedgerOps, deduct_tokens, hf] at hr
      by_cases hlt : u.tokens < a
      · simp [hlt] at hr
      · simp only [hlt, if_false] at hr
        have hu : u.id = uid := findUser_id hf
        have hid : ({ u with tokens := u.tokens - a } : UserRec).id = uid := hu
        have hf2 := findUser_setUser { u with tokens := u.tokens - a } hf hid
        obtain ⟨u'', h1, h2⟩ := ih _ uid _ users' hf2 hr
        refine ⟨u'', h1, ?_⟩
        simp only [refundSum, deductSum]
        simp at h2
        omega
    | refund a =>
      simp only [runLedgerOps, refund_tokens, hf] at hr
      have hu : u.id = uid := findUser_id hf
      have hid : ({ u with tokens := u.tokens + a } : UserRec).id = uid := hu
      have hf2 := findUser_setUser { u with tokens := u.tokens + a } hf hid
      obtain ⟨u'', h1, h2⟩ := ih _ uid _ users' hf2 hr
      refine ⟨u'', h1, ?_⟩
      simp only [refundSum, deductSum]
      simp at h2
      omega

/-- C4: over any sequence of deduct/refund operations on one existing
account that individually succeed, the final balance is the initial
balance plus the refunds minus the deducts; and a deduct whose amount
exceeds the current balance fails — raising with
`raise_on_insufficient=True`, returning `None` otherwise — leaving the
table unchanged either way. -/
theorem C4_balance_conservation (users : List UserRec) (uid : Int)
    (u : UserRec) (ops : List LedgerOp) (users' : List UserRec)
    (amount : Int) (hfind : findUser users uid = some u) :
    (runLedgerOps users uid ops = some users' →
      ∃ u'', findUser users' uid = some u'' ∧
        u''.tokens = u.tokens + refundSum ops - deductSum ops) ∧
    (u.tokens < amount →
      deduct_tokens users uid amount true =
        (users, Except.error (amount, u.tokens)) ∧
      deduct_tokens users uid amount false =
        (users, Except.ok Option.none)) := by
  constructor
  · intro hrun
    exact runLedgerOps_tokens ops users uid u users' hfind hrun
  · intro hlt
    constructor <;> simp [deduct_tokens, hfind, hlt]

/-- Witness for C4: balance 10, deduct 4 then refund 1 lands on 7; a
deduct of 100 fails leaving the table unchanged. -/
theorem C4_balance_conservation_witness :
    (∃ u'', findUser [userRow 2 7 0] 2 = some u'' ∧
      u''.tokens = (userRow 2 10 0).tokens +
        refundSum [LedgerOp.deduct 4, LedgerOp.refund 1] -
        deductSum [LedgerOp.deduct 4, LedgerOp.refund 1]) ∧
    deduct_tokens [userRow 2 10 0] 2 100 true =
      ([userRow 2 10 0], Except.error (100, 10)) := by
  have h := C4_balance_conservation [userRow 2 10 0] 2 (userRow 2 10 0)
    [LedgerOp.deduct 4, LedgerOp.refund 1] [userRow 2 7 0] 100 (by decide)
  exact ⟨h.1 (by decide), (h.2 (by decide)).1⟩

/-- C8: `update_status` rewrites exactly the fetched row, and every field
not explicitly supplied keeps its prior value — `tokens_spent` (which has
no parameter at all), `user_id` and `prompt` always; the optional result,
error and API-token fields and the retry count whenever their argument is
absent. In particular the success transition to `"done"`, which passes no
`error_message`, retains a previously recorded error message. -/
theorem C8_update_status_frame (tasks : List Task) (tid : Int) (t : Task)
    (status : String) (ru rf em : Option String) (inc : Bool)
    (api : Option Int) (hfind : findTask tasks tid = some t) :
    update_status tasks tid status ru rf em inc api =
      (setTask tasks tid (applyStatusUpdate t status ru rf em inc api),
        some (applyStatusUpdate t status ru rf em inc api)) ∧
    (applyStatusUpdate t status ru rf em inc api).tokens_spent = t.tokens_spent ∧
    (applyStatusUpdate t status ru rf em inc api).user_id = t.user_id ∧
    (applyStatusUpdate t status ru rf em inc api).prompt = t.prompt ∧
    (ru = Option.none →
      (applyStatusUpdate t status ru rf em inc api).result_image_url =
        t.result_image_url) ∧
    (rf = Option.none →
      (applyStatusUpdate t status ru rf em inc api).result_file_id =
        t.result_file_id) ∧
    (em = Option.none →
      (applyStatusUpdate t status ru rf em inc api).error_message =
        t.error_message) ∧
    (api = Option.none →
      (applyStatusUpdate t status ru rf em inc api).api_tokens_spent =
        t.api_tokens_spent) ∧
    (inc = false →
      (applyStatusUpdate t status ru rf em inc api).retry_count =
        t.retry_count) ∧
    (applyStatusUpdate t "done" ru rf Option.none inc api).error_message =
      t.error_message := by
  refine ⟨?_, rfl, rfl, rfl, ?_, ?_, ?_, ?_, ?_, rfl⟩
  · simp [update_status, hfind]
  · intro h; subst h; rfl
  · intro h; subst h; rfl
  · intro h; subst h; rfl
  · intro h; subst h; rfl
  · intro h; subst h; simp [applyStatusUpdate]

/-- Witness for C8 at the worker's `"done"` call shape on a task carrying
an earlier error message. -/
theorem C8_update_status_frame_witness :
    (applyStatusUpdate
        (genTask 1 2 5 "p" "medium" "1024x1024" "processing" 2 (some "boom"))
        "done" Option.none (some "FILE1") Option.none false (some 7)).tokens_spent =
      (genTask 1 2 5 "p" "medium" "1024x1024" "processing" 2 (some "boom")).tokens_spent ∧
    (applyStatusUpdate
        (genTask 1 2 5 "p" "medium" "1024x1024" "processing" 2 (some "boom"))
        "done" Option.none (some "FILE1") Option.none false (some 7)).error_message =
      (genTask 1 2 5 "p" "medium" "1024x1024" "processing" 2 (some "boom")).error_message := by
  have h := C8_update_status_frame
    [genTask 1 2 5 "p" "medium" "1024x1024" "processing" 2 (some "boom")] 1
    (genTask 1 2 5 "p" "medium" "1024x1024" "processing" 2 (some "boom"))
    "done" Option.none (some "FILE1") Option.none false (some 7) (by decide)
  exact ⟨h.2.1, h.2.2.2.2.2.2.1 rfl⟩

/-- C5: tasks are created `"pending"`; a worker step leaves the task in
state `"done"` only when delivery was confirmed — the environment's file
id is truthy and is recorded on the task — and an attempt on which the
provider succeeded but delivery failed is handled identically to a
transient generation failure with message
`"Failed to send result to user"` (the provider result is discarded). -/
theorem C5_done_requires_delivery (tid uid c B a : Int) (p q s : String)
    (r : Nat) (err : Option String) (env : WorkerEnv) :
    (TaskRepository.create tid uid "generate" p c Option.none q s
      Option.none 1).status = "pending" ∧
    (∀ T, findTask (process_generation_task_async env
        ⟨[genTask tid uid c p q s "pending" r err], [userRow uid B a]⟩
        tid).state.tasks tid = some T →
      T.status = "done" →
      truthyStr env.send_file_id = true ∧
      T.result_file_id = env.send_file_id) ∧
    (∀ (st' : WorkerState) (tid' : Int) (res : GenerationResult)
        (sfid : Option String),
      res.success = true →
      (truthyStr res.image_url || truthyStr res.image_base64) = true →
      truthyStr sfid = false →
      process_generation_task_async ⟨res, sfid⟩ st' tid' =
        process_generation_task_async
          (failEnv "Failed to send result to user") st' tid') := by
  have hmod : isModerationError "Failed to send result to user" = false := by
    decide
  have hne' : ("Failed to send result to user" : String).data.isEmpty = false := by
    decide
  refine ⟨rfl, ?_, ?_⟩
  · obtain ⟨⟨suc, iurl, ib64, er⟩, sf⟩ := env
    intro T hT hdone
    by_cases h1 : (suc && (truthyStr iurl || truthyStr ib64)) = true
    · by_cases h2 : truthyStr sf = true
      · cases sf with
        | none => simp [truthyStr] at h2
        | some x =>
          refine ⟨h2, ?_⟩
          simp [process_generation_task_async, genTask, userRow,
            update_status, findTask, setTask, applyStatusUpdate, setIfSome,
            handleProviderResult, h1, h2, update_user_api_tokens, findUser,
            setUser] at hT
          subst hT
          rfl
      · by_cases h4 : MAX_RETRIES ≤ r + 1
        · simp [process_generation_task_async, genTask, userRow,
            update_status, findTask, setTask, applyStatusUpdate, setIfSome,
            handleProviderResult, h1, h2, handleGenericFailure, h4,
            refund_task, refund_tokens, findUser, setUser] at hT
          subst hT
          simp at hdone
        · simp [process_generation_task_async, genTask, userRow,
            update_status, findTask, setTask, applyStatusUpdate, setIfSome,
            handleProviderResult, h1, h2, handleGenericFailure, h4] at hT
          subst hT
          simp at hdone
    · by_cases h3 : isModerationError (pyOrStr er "Unknown error") = true
      · simp [process_generation_task_async, genTask, userRow,
          update_status, findTask, setTask, applyStatusUpdate, setIfSome,
          handleProviderResult, h1, h3, handleModeration, refund_task,
          refund_tokens, findUser, setUser] at hT
        subst hT
        simp at hdone
      · by_cases h4 : MAX_RETRIES ≤ r + 1
        · simp [process_generation_task_async, genTask, userRow,
            update_status, findTask, setTask, applyStatusUpdate, setIfSome,
            handleProviderResult, h1, h3, handleGenericFailure, h4,
            refund_task, refund_tokens, findUser, setUser] at hT
          subst hT
          simp at hdone
        · simp [process_generation_task_async, genTask, userRow,
            update_status, findTask, setTask, applyStatusUpdate, setIfSome,
            handleProviderResult, h1, h3, handleGenericFailure, h4] at hT
          subst hT
          simp at hdone
  · intro st' tid' res sfid hs hp hf
    have hpy : pyOrStr (some "Failed to send result to user") "Unknown error" =
        "Failed to send result to user" := by decide
    cases hfind : findTask st'.tasks tid' with
    | none => simp [process_generation_task_async, hfind]
    | some task =>
      by_cases ht : task.task_type = "generate"
      · simp [process_generation_task_async, hfind, ht,
          handleProviderResult, hs, hp, hf, failEnv, hpy, hmod]
      · by_cases he : task.task_type = "edit"
        · by_cases hsrc : task.source_image_url = Option.none
          · simp [process_generation_task_async, hfind, ht, he, hsrc]
          · simp [process_generation_task_async, hfind, ht, he, hsrc,
              handleProviderResult, hs, hp, hf, failEnv, hpy, hmod]
        · simp [process_generation_task_async, hfind, ht, he]

end AxelPhotoBot
